import Mathlib

/-!
Shallow embedding of the weather server (`app/models.py`, `app/database.py`,
`app/weather_api.py`, `app/main.py`) and proofs about its specification.

Coordinates and weather field values are modeled as rationals, timestamps as
seconds since the epoch (UTC, natural numbers), the relational store as lists
of rows in insertion order.
-/

namespace WeatherServer

/-- A registered city row (table `cities` in `app/models.py`). -/
structure City where
  id : Nat
  name : String
  latitude : ℚ
  longitude : ℚ
  isActive : Bool
deriving DecidableEq

/-- A persisted observation row (table `weather_data` in `app/models.py`).
Each measured field is optional: absent when the provider omitted it. -/
structure WeatherData where
  cityId : Nat
  timestamp : Nat
  temperature : Option ℚ
  windSpeed : Option ℚ
  pressure : Option ℚ
  humidity : Option ℚ
  precipitation : Option ℚ
deriving DecidableEq

/-- The persistent store: both tables, rows in insertion order. -/
structure DB where
  cities : List City
  weather : List WeatherData
deriving DecidableEq

/-- Models `select(City).where(City.name == name)` with `one_or_none`.
City names are unique, so the first matching row is the only one. -/
def findCityByName (db : DB) (name : String) : Option City :=
  db.cities.find? (fun c => c.name == name)

/-- The row `add_city` inserts: active, with a fresh generated id. -/
def newCity (db : DB) (name : String) (lat lon : ℚ) : City :=
  { id := db.cities.length, name := name, latitude := lat, longitude := lon,
    isActive := true }

/-- Models `add_city` from `app/database.py`: return false if a city with the name
exists, otherwise insert a new active city and return true. -/
def addCity (db : DB) (name : String) (lat lon : ℚ) : DB × Bool :=
  match findCityByName db name with
  | some _ => (db, false)
  | none => ({ db with cities := db.cities ++ [newCity db name lat lon] }, true)

/-- How many stored city rows carry a given name. -/
def countByName (db : DB) (name : String) : Nat :=
  (db.cities.filter (fun c => c.name == name)).length

/-- The dictionaries returned by `get_all_cities`. -/
structure CityInfo where
  name : String
  latitude : ℚ
  longitude : ℚ
deriving DecidableEq

/-- Models `get_all_cities`: name and coordinates of every active city. -/
def getAllCities (db : DB) : List CityInfo :=
  (db.cities.filter (fun c => c.isActive)).map
    (fun c => { name := c.name, latitude := c.latitude, longitude := c.longitude })

/-- The snapshot dictionary built by `fetch_weather_data`: every canonical
field present as a key, its value possibly absent. -/
structure Snapshot where
  temperature : Option ℚ
  windSpeed : Option ℚ
  pressure : Option ℚ
  humidity : Option ℚ
  precipitation : Option ℚ
deriving DecidableEq

/-- The observation row written by `save_weather_data`: stamped with the
current UTC time, snapshot fields copied as-is (absent stays absent). -/
def savedRow (cityId : Nat) (now : Nat) (wd : Snapshot) : WeatherData :=
  { cityId := cityId, timestamp := now, temperature := wd.temperature,
    windSpeed := wd.windSpeed, pressure := wd.pressure,
    humidity := wd.humidity, precipitation := wd.precipitation }

/-- Models `save_weather_data` from `app/database.py`. -/
def saveWeatherData (db : DB) (cityId : Nat) (now : Nat) (wd : Snapshot) : DB :=
  { db with weather := db.weather ++ [savedRow cityId now wd] }

def secondsPerDay : Nat := 86400

/-- Models `target_time.replace(hour=0, minute=0, second=0, microsecond=0)`. -/
def startOfDay (t : Nat) : Nat := t - t % secondsPerDay

/-- Models `abs((w.timestamp - target_time).total_seconds())` in whole seconds. -/
def absDiffSec (a b : Nat) : Nat := max a b - min a b

/-- The observations of one city falling inside the calendar day that
contains the target time: `timestamp >= start_of_day` and `< end_of_day`. -/
def candidateWeather (db : DB) (cityId : Nat) (target : Nat) : List WeatherData :=
  db.weather.filter (fun w =>
    decide (w.cityId = cityId ∧ startOfDay target ≤ w.timestamp ∧
      w.timestamp < startOfDay target + secondsPerDay))

/-- Python `min(weather, key=lambda w: abs(...))`: the first element of the
list attaining the minimal key. -/
def closestWeather (target : Nat) : WeatherData → List WeatherData → WeatherData
  | w, [] => w
  | w, x :: xs =>
    if absDiffSec w.timestamp target
        ≤ absDiffSec (closestWeather target x xs).timestamp target then w
    else closestWeather target x xs

/-- The response dictionary of `get_weather_by_city_and_time`: a key is
present exactly when its `Option` value is `some`. -/
structure WeatherResponse where
  city : String
  timestamp : Nat
  temperature : Option ℚ
  humidity : Option ℚ
  windSpeed : Option ℚ
  precipitation : Option ℚ
  pressure : Option ℚ
deriving DecidableEq

/-- The keys of `field_mapping` in `get_weather_by_city_and_time`. -/
def canonicalFields : List String :=
  ["temperature", "humidity", "wind_speed", "precipitation", "pressure"]

/-- Presence of one response key: with no filter, any non-null value is kept;
with a filter, only requested keys are kept (a null value never appears). -/
def includeField (params : Option (List String)) (name : String)
    (v : Option ℚ) : Option ℚ :=
  match params with
  | none => v
  | some l => if l.contains name then v else none

/-- The response built from the chosen observation. -/
def mkResponse (cityName : String) (w : WeatherData)
    (params : Option (List String)) : WeatherResponse :=
  { city := cityName
    timestamp := w.timestamp
    temperature := includeField params "temperature" w.temperature
    humidity := includeField params "humidity" w.humidity
    windSpeed := includeField params "wind_speed" w.windSpeed
    precipitation := includeField params "precipitation" w.precipitation
    pressure := includeField params "pressure" w.pressure }

/-- Models `get_weather_by_city_and_time` from `app/database.py`. `parse` models
`datetime.fromisoformat`; a parse failure raises, is caught by the enclosing
handler, and yields `none`. -/
def getWeatherByCityAndTime (db : DB) (cityName : String) (timeStr : String)
    (params : Option (List String)) (parse : String → Option Nat) :
    Option WeatherResponse :=
  match findCityByName db cityName with
  | none => none
  | some city =>
    match parse timeStr with
    | none => none
    | some targetTime =>
      match candidateWeather db city.id targetTime with
      | [] => none
      | w :: ws => some (mkResponse cityName (closestWeather targetTime w ws) params)

/-- Models `.scalars().one_or_none()`: `some none` for zero rows, the row for one
row, and for several rows a `MultipleResultsFound` exception - modeled as the
outer `none`. -/
def oneOrNone {α : Type} : List α → Option (Option α)
  | [] => some none
  | [a] => some (some a)
  | _ :: _ :: _ => none

/-- The active cities inside the axis-aligned ±0.1 degree box around the
queried coordinates. -/
def citiesInBox (db : DB) (lat lon : ℚ) : List City :=
  db.cities.filter (fun c =>
    decide (lat - 1/10 ≤ c.latitude ∧ c.latitude ≤ lat + 1/10 ∧
      lon - 1/10 ≤ c.longitude ∧ c.longitude ≤ lon + 1/10 ∧ c.isActive = true))

/-- All observations of one city, in storage order. -/
def cityWeather (db : DB) (cityId : Nat) : List WeatherData :=
  db.weather.filter (fun w => decide (w.cityId = cityId))

/-- Models `order_by(WeatherData.timestamp.desc()).limit(1)`: an observation of
maximal timestamp (the first such under ties). -/
def latestWeather : WeatherData → List WeatherData → WeatherData
  | w, [] => w
  | w, x :: xs =>
    if (latestWeather x xs).timestamp ≤ w.timestamp then w
    else latestWeather x xs

/-- The response dictionary of `get_current_weather_by_coords`: the three
field keys are always present, their values possibly null. -/
structure CurrentWeatherResponse where
  city : String
  temperature : Option ℚ
  windSpeed : Option ℚ
  pressure : Option ℚ
  timestamp : Nat
deriving DecidableEq

/-- Models `get_current_weather_by_coords` from `app/database.py`: the city lookup
uses `one_or_none`, whose multiple-rows exception is caught by the handler
and turned into `None`. -/
def getCurrentWeatherByCoords (db : DB) (lat lon : ℚ) :
    Option CurrentWeatherResponse :=
  match oneOrNone (citiesInBox db lat lon) with
  | none => none
  | some none => none
  | some (some city) =>
    match cityWeather db city.id with
    | [] => none
    | w :: ws =>
      let latest := latestWeather w ws
      some { city := city.name, temperature := latest.temperature,
             windSpeed := latest.windSpeed, pressure := latest.pressure,
             timestamp := latest.timestamp }

/-- The `current` sub-object of the provider's JSON body, provider-side field
names, each possibly missing. -/
structure CurrentFields where
  temperature_2m : Option ℚ
  wind_speed_10m : Option ℚ
  surface_pressure : Option ℚ
  relative_humidity_2m : Option ℚ
  precipitation : Option ℚ
deriving DecidableEq

/-- A successfully decoded provider body; `current` itself may be missing
(`data.get("current", {})` then substitutes an empty dictionary). -/
structure ProviderBody where
  current : Option CurrentFields
deriving DecidableEq

/-- The outcome of the outbound request in `fetch_weather_data`: an
`httpx.HTTPError` (network failure or non-success status from
`raise_for_status`), any other exception while decoding the body, or a
decoded body. -/
inductive FetchOutcome where
  | httpError : FetchOutcome
  | malformed : FetchOutcome
  | success : ProviderBody → FetchOutcome
deriving DecidableEq

/-- The empty dictionary substituted for a missing `current` object. -/
def emptyCurrent : CurrentFields := ⟨none, none, none, none, none⟩

/-- Models `fetch_weather_data` from `app/weather_api.py`: both exception arms
return `None`; on success each canonical field is read with `.get`, so a
missing provider field becomes absent. -/
def fetchWeatherData : FetchOutcome → Option Snapshot
  | .httpError => none
  | .malformed => none
  | .success body =>
    let currentData := body.current.getD emptyCurrent
    some { temperature := currentData.temperature_2m,
           windSpeed := currentData.wind_speed_10m,
           pressure := currentData.surface_pressure,
           humidity := currentData.relative_humidity_2m,
           precipitation := currentData.precipitation }

/-- One per-city iteration of the loop body in `update_weather_periodically`:
fetch, and if a snapshot came back, resolve the city row and save. -/
def updateStep (fetch : ℚ → ℚ → Option Snapshot) (now : Nat) (db : DB)
    (c : CityInfo) : DB :=
  match fetch c.latitude c.longitude with
  | none => db
  | some wd =>
    match findCityByName db c.name with
    | none => db
    | some cityObj => saveWeatherData db cityObj.id now wd

/-- One full cycle of `update_weather_periodically`: list the active cities
once, then process each in order. `fetch` abstracts `fetch_weather_data`,
which returns an optional snapshot and never raises. -/
def updateCycle (db : DB) (fetch : ℚ → ℚ → Option Snapshot) (now : Nat) : DB :=
  (getAllCities db).foldl (updateStep fetch now) db

/-- Models `add_city_endpoint` from `app/main.py`: register the city; on success,
one synchronous fetch, and a save only when the fetch produced a snapshot. -/
def addCityEndpoint (db : DB) (name : String) (lat lon : ℚ)
    (fetch : ℚ → ℚ → Option Snapshot) (now : Nat) : DB × Bool :=
  match addCity db name lat lon with
  | (db1, false) => (db1, false)
  | (db1, true) =>
    match fetch lat lon with
    | none => (db1, true)
    | some wd =>
      match findCityByName db1 name with
      | none => (db1, true)
      | some cityObj => (saveWeatherData db1 cityObj.id now wd, true)

/-- Models `get_weather_by_time` from `app/main.py`: 404 when the lookup returned
nothing, otherwise the response. -/
def getWeatherByTimeEndpoint (db : DB) (cityName : String) (timeStr : String)
    (params : Option (List String)) (parse : String → Option Nat) :
    Except Nat WeatherResponse :=
  match getWeatherByCityAndTime db cityName timeStr params parse with
  | none => .error 404
  | some r => .ok r

/-! ### Sample data used by concrete witnesses -/

/-- Observation taken 08:00 UTC on day 0. -/
def obs0800 : WeatherData := ⟨0, 28800, some 11, some 1, some 1013, some 80, some 0⟩

/-- Observation taken 12:00 UTC on day 0, precipitation missing. -/
def obs1200 : WeatherData := ⟨0, 43200, some 15, some 2, some 1015, some 60, none⟩

/-- Observation taken 18:00 UTC on day 0. -/
def obs1800 : WeatherData := ⟨0, 64800, some 13, some 3, some 1014, some 70, some 1⟩

def sampleCity : City := ⟨0, "Paris", 48, 2, true⟩

/-- A store with one city and observations at 08:00, 12:00 and 18:00. -/
def sampleDb : DB := ⟨[sampleCity], [obs0800, obs1200, obs1800]⟩

/-- A parser defined on exactly one string, for 13:00 UTC on day 0. -/
def sampleParse : String → Option Nat :=
  fun s => if s == "1970-01-01T13:00:00" then some 46800 else none

def cityA : City := ⟨0, "Alpha", 10, 20, true⟩

def cityB : City := ⟨1, "Beta", 10, 20, true⟩

/-- Two active cities at the same coordinates, each with one observation. -/
def twinDb : DB :=
  ⟨[cityA, cityB],
   [⟨0, 100, some 1, some 1, some 1, some 1, some 1⟩,
    ⟨1, 200, some 2, some 2, some 2, some 2, some 2⟩]⟩

/-- A provider snapshot with the precipitation field missing. -/
def snapNoPrec : Snapshot := ⟨some 15, some 2, some 1015, some 60, none⟩

/-- A full provider snapshot. -/
def snapG : Snapshot := ⟨some 20, some 5, some 1000, some 50, some 2⟩

/-- Two active cities at distinct coordinates and no observations yet. -/
def schedDb : DB := ⟨[cityA, ⟨1, "Gamma", 30, 40, true⟩], []⟩

/-- A fetch that fails at Alpha's coordinates and succeeds at Gamma's. -/
def schedFetch : ℚ → ℚ → Option Snapshot :=
  fun la _ => if la = 30 then some snapG else none

/-! ### Helper lemmas -/

lemma closestWeather_mem (target : Nat) (w : WeatherData)
    (ws : List WeatherData) : closestWeather target w ws ∈ w :: ws := by
  induction ws generalizing w with
  | nil => simp [closestWeather]
  | cons x xs ih =>
    rw [closestWeather]
    by_cases h : absDiffSec w.timestamp target
        ≤ absDiffSec (closestWeather target x xs).timestamp target
    · rw [if_pos h]; exact List.mem_cons_self ..
    · rw [if_neg h]; exact List.mem_cons_of_mem _ (ih x)

lemma closestWeather_min (target : Nat) (w : WeatherData)
    (ws : List WeatherData) : ∀ x ∈ w :: ws,
      absDiffSec (closestWeather target w ws).timestamp target
        ≤ absDiffSec x.timestamp target := by
  induction ws generalizing w with
  | nil =>
    intro x hx
    rw [List.mem_singleton] at hx
    subst hx
    simp [closestWeather]
  | cons y ys ih =>
    intro x hx
    rw [closestWeather]
    by_cases h : absDiffSec w.timestamp target
        ≤ absDiffSec (closestWeather target y ys).timestamp target
    · rw [if_pos h]
      rcases List.mem_cons.mp hx with rfl | hx'
      · exact le_refl _
      · exact le_trans h (ih y x hx')
    · rw [if_neg h]
      rcases List.mem_cons.mp hx with rfl | hx'
      · exact le_of_not_le h
      · exact ih y x hx'

lemma latestWeather_mem (w : WeatherData) (ws : List WeatherData) :
    latestWeather w ws ∈ w :: ws := by
  induction ws generalizing w with
  | nil => simp [latestWeather]
  | cons x xs ih =>
    rw [latestWeather]
    by_cases h : (latestWeather x xs).timestamp ≤ w.timestamp
    · rw [if_pos h]; exact List.mem_cons_self ..
    · rw [if_neg h]; exact List.mem_cons_of_mem _ (ih x)

lemma latestWeather_max (w : WeatherData) (ws : List WeatherData) :
    ∀ x ∈ w :: ws, x.timestamp ≤ (latestWeather w ws).timestamp := by
  induction ws generalizing w with
  | nil =>
    intro x hx
    rw [List.mem_singleton] at hx
    subst hx
    simp [latestWeather]
  | cons y ys ih =>
    intro x hx
    rw [latestWeather]
    by_cases h : (latestWeather y ys).timestamp ≤ w.timestamp
    · rw [if_pos h]
      rcases List.mem_cons.mp hx with rfl | hx'
      · exact le_refl _
      · exact le_trans (ih y x hx') h
    · rw [if_neg h]
      rcases List.mem_cons.mp hx with rfl | hx'
      · exact le_of_not_le h
      · exact ih y x hx'

lemma candidateWeather_subset (db : DB) (cityId : Nat) (target : Nat) :
    ∀ w ∈ candidateWeather db cityId target, w ∈ db.weather := by
  intro w hw
  exact (List.mem_filter.mp hw).1

lemma getWeather_some_shape (db : DB) (cityName timeStr : String)
    (params : Option (List String)) (parse : String → Option Nat)
    (r : WeatherResponse)
    (h : getWeatherByCityAndTime db cityName timeStr params parse = some r) :
    ∃ w ∈ db.weather, r = mkResponse cityName w params := by
  cases hc : findCityByName db cityName with
  | none => simp [getWeatherByCityAndTime, hc] at h
  | some city =>
    cases hp : parse timeStr with
    | none => simp [getWeatherByCityAndTime, hc, hp] at h
    | some target =>
      cases hcand : candidateWeather db city.id target with
      | nil => simp [getWeatherByCityAndTime, hc, hp, hcand] at h
      | cons w ws =>
        simp only [getWeatherByCityAndTime, hc, hp, hcand,
          Option.some.injEq] at h
        refine ⟨closestWeather target w ws, ?_, h.symm⟩
        exact candidateWeather_subset db city.id target _
          (hcand ▸ closestWeather_mem target w ws)

lemma contains_filter_of_true {p : String → Bool} {a : String}
    (h : p a = true) :
    ∀ l : List String, (l.filter p).contains a = l.contains a := by
  intro l
  induction l with
  | nil => rfl
  | cons x xs ih =>
    by_cases hx : p x = true
    · simp [List.filter_cons, hx, List.contains_cons, ih, h]
    · have hne : ¬(a = x) := by
        intro e
        subst e
        exact hx h
      simp [List.filter_cons, hx, List.contains_cons, ih, h, hne]

lemma updateStep_cities (fetch : ℚ → ℚ → Option Snapshot) (now : Nat)
    (acc : DB) (x : CityInfo) :
    (updateStep fetch now acc x).cities = acc.cities := by
  unfold updateStep
  cases fetch x.latitude x.longitude with
  | none => rfl
  | some wd =>
    cases findCityByName acc x.name with
    | none => rfl
    | some o => rfl

lemma updateFold_weather_mono (fetch : ℚ → ℚ → Option Snapshot) (now : Nat)
    (l : List CityInfo) (acc : DB) (w : WeatherData) (h : w ∈ acc.weather) :
    w ∈ (l.foldl (updateStep fetch now) acc).weather := by
  induction l generalizing acc with
  | nil => exact h
  | cons x t ih =>
    rw [List.foldl_cons]
    apply ih
    unfold updateStep
    cases fetch x.latitude x.longitude with
    | none => exact h
    | some wd =>
      cases findCityByName acc x.name with
      | none => exact h
      | some o =>
        simp only [saveWeatherData, List.mem_append]
        exact Or.inl h

lemma updateFold_saves (fetch : ℚ → ℚ → Option Snapshot) (now : Nat)
    (db : DB) (l : List CityInfo) (acc : DB) (hacc : acc.cities = db.cities)
    (c : CityInfo) (hc : c ∈ l) (wd : Snapshot)
    (hf : fetch c.latitude c.longitude = some wd) (obj : City)
    (hfind : findCityByName db c.name = some obj) :
    savedRow obj.id now wd ∈ (l.foldl (updateStep fetch now) acc).weather := by
  induction l generalizing acc with
  | nil => cases hc
  | cons x t ih =>
    rw [List.foldl_cons]
    rcases List.mem_cons.mp hc with rfl | hct
    · apply updateFold_weather_mono
      have hfindacc : findCityByName acc c.name = some obj := by
        unfold findCityByName at hfind ⊢
        rw [hacc]
        exact hfind
      unfold updateStep
      rw [hf, hfindacc]
      simp [saveWeatherData]
    · exact ih (updateStep fetch now acc x)
        ((updateStep_cities fetch now acc x).trans hacc) hct

lemma findCityByName_none_iff (db : DB) (name : String) :
    findCityByName db name = none ↔ ∀ c ∈ db.cities, ¬(c.name = name) := by
  simp [findCityByName, List.find?_eq_none]

lemma countByName_eq_zero (db : DB) (name : String)
    (h : findCityByName db name = none) : countByName db name = 0 := by
  rw [findCityByName_none_iff] at h
  simp only [countByName, List.length_eq_zero, List.filter_eq_nil_iff]
  intro c hc
  simpa using h c hc

lemma findCityByName_after_add (db : DB) (name : String) (lat lon : ℚ)
    (h : findCityByName db name = none) :
    findCityByName
      ({ db with cities := db.cities ++ [newCity db name lat lon] } : DB) name
      = some (newCity db name lat lon) := by
  simp only [findCityByName] at h ⊢
  rw [List.find?_append, h]
  simp [List.find?, newCity]

/-! ### Claim theorems -/

/-- Claim C2: `add_city` returns false with no new row inserted when a city
with the name already exists, and otherwise inserts one new active city and
returns true; registering the same name twice leaves exactly one stored row
for that name, the first call returning true and the second false. -/
theorem addCity_dedup (db : DB) (name : String) (lat lon : ℚ) :
    (findCityByName db name ≠ none → addCity db name lat lon = (db, false)) ∧
    (findCityByName db name = none →
      (addCity db name lat lon).2 = true ∧
      (addCity db name lat lon).1.cities
        = db.cities ++ [newCity db name lat lon] ∧
      (newCity db name lat lon).name = name ∧
      (newCity db name lat lon).isActive = true ∧
      (addCity (addCity db name lat lon).1 name lat lon).2 = false ∧
      (addCity (addCity db name lat lon).1 name lat lon).1
        = (addCity db name lat lon).1 ∧
      countByName (addCity db name lat lon).1 name = 1) := by
  constructor
  · intro h
    cases hf : findCityByName db name with
    | none => exact absurd hf h
    | some c => simp [addCity, hf]
  · intro h
    have hadd : addCity db name lat lon
        = ({ db with cities := db.cities ++ [newCity db name lat lon] }, true) := by
      simp [addCity, h]
    have hfind := findCityByName_after_add db name lat lon h
    refine ⟨by simp [hadd], by simp [hadd], rfl, rfl, ?_, ?_, ?_⟩
    · rw [hadd]
      simp [addCity, hfind]
    · rw [hadd]
      simp [addCity, hfind]
    · have h0 : countByName db name = 0 := countByName_eq_zero db name h
      simp only [countByName] at h0 ⊢
      simp [hadd, countByName, List.filter_append, List.length_append, h0,
        List.length_eq_zero.mp h0, newCity]

/-- Witness for C2 at a concrete store: the empty store has no city named
Oslo; adding it twice leaves one row, with returns true then false. -/
theorem addCity_dedup_witness :
    findCityByName ⟨[], []⟩ "Oslo" = none ∧
    ((addCity ⟨[], []⟩ "Oslo" 59 10).2 = true ∧
      (addCity ⟨[], []⟩ "Oslo" 59 10).1.cities
        = ([] : List City) ++ [newCity ⟨[], []⟩ "Oslo" 59 10] ∧
      (newCity ⟨[], []⟩ "Oslo" 59 10).name = "Oslo" ∧
      (newCity ⟨[], []⟩ "Oslo" 59 10).isActive = true ∧
      (addCity (addCity ⟨[], []⟩ "Oslo" 59 10).1 "Oslo" 59 10).2 = false ∧
      (addCity (addCity ⟨[], []⟩ "Oslo" 59 10).1 "Oslo" 59 10).1
        = (addCity ⟨[], []⟩ "Oslo" 59 10).1 ∧
      countByName (addCity ⟨[], []⟩ "Oslo" 59 10).1 "Oslo" = 1) :=
  ⟨by decide, (addCity_dedup ⟨[], []⟩ "Oslo" 59 10).2 (by decide)⟩

/-- Claim C1: when the city exists, the timestamp parses and the city has at
least one observation inside the UTC day containing the requested time, the
lookup returns the candidate observation minimizing the absolute difference
in seconds from the requested time. -/
theorem getWeather_nearest (db : DB) (cityName timeStr : String)
    (params : Option (List String)) (parse : String → Option Nat)
    (city : City) (target : Nat)
    (hcity : findCityByName db cityName = some city)
    (hparse : parse timeStr = some target)
    (hne : candidateWeather db city.id target ≠ []) :
    ∃ w ∈ candidateWeather db city.id target,
      getWeatherByCityAndTime db cityName timeStr params parse
        = some (mkResponse cityName w params) ∧
      ∀ x ∈ candidateWeather db city.id target,
        absDiffSec w.timestamp target ≤ absDiffSec x.timestamp target := by
  cases hcand : candidateWeather db city.id target with
  | nil => exact absurd hcand hne
  | cons w ws =>
    refine ⟨closestWeather target w ws, ?_, ?_, ?_⟩
    · exact closestWeather_mem ..
    · simp [getWeatherByCityAndTime, hcity, hparse, hcand]
    · exact closestWeather_min target w ws

/-- Witness for C1: observations at 08:00, 12:00 and 18:00 UTC on day 0;
querying 13:00 on day 0 yields the nearest candidate, concretely the 12:00
observation. -/
theorem getWeather_nearest_witness :
    (findCityByName sampleDb "Paris" = some sampleCity ∧
     sampleParse "1970-01-01T13:00:00" = some 46800 ∧
     candidateWeather sampleDb sampleCity.id 46800 ≠ []) ∧
    (∃ w ∈ candidateWeather sampleDb sampleCity.id 46800,
      getWeatherByCityAndTime sampleDb "Paris" "1970-01-01T13:00:00"
          none sampleParse
        = some (mkResponse "Paris" w none) ∧
      ∀ x ∈ candidateWeather sampleDb sampleCity.id 46800,
        absDiffSec w.timestamp 46800 ≤ absDiffSec x.timestamp 46800) ∧
    getWeatherByCityAndTime sampleDb "Paris" "1970-01-01T13:00:00"
        none sampleParse
      = some (mkResponse "Paris" obs1200 none) :=
  ⟨⟨by decide, by decide, by decide⟩,
   getWeather_nearest sampleDb "Paris" "1970-01-01T13:00:00" none sampleParse
     sampleCity 46800 (by decide) (by decide) (by decide),
   by decide⟩

/-- Claim C3 counterexample: two active cities inside the queried box, each
holding an observation, yet the coordinate lookup returns not-found rather
than a record for one of them - `one_or_none` raises on multiple rows and
the exception handler turns it into `None`. -/
theorem getCurrent_multiMatch_counterexample :
    2 ≤ (citiesInBox twinDb 10 20).length ∧
    (∀ c ∈ citiesInBox twinDb 10 20, cityWeather twinDb c.id ≠ []) ∧
    getCurrentWeatherByCoords twinDb 10 20 = none := by
  refine ⟨?_, ?_, ?_⟩ <;>
    norm_num [citiesInBox, twinDb, cityA, cityB, List.filter, cityWeather,
      getCurrentWeatherByCoords, oneOrNone]

/-- Claim C3 amended: when more than one active city lies within the ±0.1
degree box of the queried coordinates, `get_current_weather_by_coords`
returns not-found (`None`) instead of selecting one of the matches. -/
theorem getCurrent_multiMatch (db : DB) (lat lon : ℚ)
    (h : 2 ≤ (citiesInBox db lat lon).length) :
    getCurrentWeatherByCoords db lat lon = none := by
  unfold getCurrentWeatherByCoords
  cases hc : citiesInBox db lat lon with
  | nil => simp [hc] at h
  | cons a t =>
    cases t with
    | nil =>
      rw [hc] at h
      simp at h
    | cons b t2 => simp [oneOrNone]

/-- Witness for the amended C3 at the twin-city store. -/
theorem getCurrent_multiMatch_witness :
    2 ≤ (citiesInBox twinDb 10 20).length ∧
    getCurrentWeatherByCoords twinDb 10 20 = none :=
  ⟨by norm_num [citiesInBox, twinDb, cityA, cityB, List.filter],
   getCurrent_multiMatch twinDb 10 20
     (by norm_num [citiesInBox, twinDb, cityA, cityB, List.filter])⟩

/-- Claim C4: the coordinate lookup returns not-found when no active city is
inside the box; with exactly one matching city it returns not-found if that
city has no observations, and otherwise a record carrying the city's name
and the data of an observation of maximal timestamp. -/
theorem getCurrent_spec (db : DB) (lat lon : ℚ) :
    (citiesInBox db lat lon = [] →
      getCurrentWeatherByCoords db lat lon = none) ∧
    (∀ c, citiesInBox db lat lon = [c] →
      (cityWeather db c.id = [] →
        getCurrentWeatherByCoords db lat lon = none) ∧
      (∀ w ws, cityWeather db c.id = w :: ws →
        ∃ r, getCurrentWeatherByCoords db lat lon = some r ∧
          r.city = c.name ∧
          (∃ x ∈ cityWeather db c.id, r.timestamp = x.timestamp ∧
            r.temperature = x.temperature ∧ r.windSpeed = x.windSpeed ∧
            r.pressure = x.pressure) ∧
          ∀ x ∈ cityWeather db c.id, x.timestamp ≤ r.timestamp)) := by
  refine ⟨?_, ?_⟩
  · intro h
    simp [getCurrentWeatherByCoords, h, oneOrNone]
  · intro c hc
    refine ⟨?_, ?_⟩
    · intro hw
      simp [getCurrentWeatherByCoords, hc, oneOrNone, hw]
    · intro w ws hw
      refine ⟨⟨c.name, (latestWeather w ws).temperature,
          (latestWeather w ws).windSpeed, (latestWeather w ws).pressure,
          (latestWeather w ws).timestamp⟩, ?_, rfl, ?_, ?_⟩
      · simp [getCurrentWeatherByCoords, hc, oneOrNone, hw]
      · exact ⟨latestWeather w ws, hw ▸ latestWeather_mem w ws,
          rfl, rfl, rfl, rfl⟩
      · intro x hx
        rw [hw] at hx
        exact latestWeather_max w ws x hx

/-- Witness for C4: the empty-box, single-match-no-data and
single-match-with-data branches at concrete stores; the returned record is
the 18:00 observation, the one of maximal timestamp. -/
theorem getCurrent_spec_witness :
    (citiesInBox sampleDb 0 0 = [] ∧
      getCurrentWeatherByCoords sampleDb 0 0 = none) ∧
    (citiesInBox (⟨[sampleCity], []⟩ : DB) 48 2 = [sampleCity] ∧
      cityWeather (⟨[sampleCity], []⟩ : DB) sampleCity.id = [] ∧
      getCurrentWeatherByCoords (⟨[sampleCity], []⟩ : DB) 48 2 = none) ∧
    (citiesInBox sampleDb 48 2 = [sampleCity] ∧
      cityWeather sampleDb sampleCity.id = [obs0800, obs1200, obs1800] ∧
      ∃ r, getCurrentWeatherByCoords sampleDb 48 2 = some r ∧
        r.city = sampleCity.name ∧
        (∃ x ∈ cityWeather sampleDb sampleCity.id, r.timestamp = x.timestamp ∧
          r.temperature = x.temperature ∧ r.windSpeed = x.windSpeed ∧
          r.pressure = x.pressure) ∧
        ∀ x ∈ cityWeather sampleDb sampleCity.id, x.timestamp ≤ r.timestamp) :=
  ⟨⟨by norm_num [citiesInBox, sampleDb, sampleCity, List.filter],
    (getCurrent_spec sampleDb 0 0).1
      (by norm_num [citiesInBox, sampleDb, sampleCity, List.filter])⟩,
   ⟨by norm_num [citiesInBox, sampleCity, List.filter], by decide,
    (((getCurrent_spec (⟨[sampleCity], []⟩ : DB) 48 2).2 sampleCity
      (by norm_num [citiesInBox, sampleCity, List.filter])).1 (by decide))⟩,
   ⟨by norm_num [citiesInBox, sampleDb, sampleCity, List.filter], by decide,
    (((getCurrent_spec sampleDb 48 2).2 sampleCity
      (by norm_num [citiesInBox, sampleDb, sampleCity, List.filter])).2 obs0800
      [obs1200, obs1800] (by decide))⟩⟩

/-- Claim C5: in one refresh cycle, every listed city whose fetch returns a
snapshot and whose row resolves by name gets its observation persisted in
that same cycle, independently of fetch failures for the other cities. -/
theorem updateCycle_isolation (db : DB) (fetch : ℚ → ℚ → Option Snapshot)
    (now : Nat) (c : CityInfo) (wd : Snapshot) (obj : City)
    (hc : c ∈ getAllCities db)
    (hf : fetch c.latitude c.longitude = some wd)
    (hfind : findCityByName db c.name = some obj) :
    savedRow obj.id now wd ∈ (updateCycle db fetch now).weather :=
  updateFold_saves fetch now db (getAllCities db) db rfl c hc wd hf obj hfind

/-- Witness for C5: Alpha's fetch fails, yet Gamma, processed later in the
same cycle, gets its observation persisted. -/
theorem updateCycle_isolation_witness :
    schedFetch 10 20 = none ∧
    getAllCities schedDb
      = [⟨"Alpha", 10, 20⟩, ⟨"Gamma", 30, 40⟩] ∧
    schedFetch 30 40 = some snapG ∧
    findCityByName schedDb "Gamma" = some ⟨1, "Gamma", 30, 40, true⟩ ∧
    savedRow 1 777 snapG ∈ (updateCycle schedDb schedFetch 777).weather :=
  ⟨by norm_num [schedFetch], by decide, by norm_num [schedFetch], by decide,
   updateCycle_isolation schedDb schedFetch 777 ⟨"Gamma", 30, 40⟩ snapG
     ⟨1, "Gamma", 30, 40, true⟩ (by decide) (by norm_num [schedFetch])
     (by decide)⟩

/-- Claim C6: a saved observation keeps every absent snapshot field absent
(never a default number), and a query without a field filter reproduces the
stored optional fields exactly, omitting the absent ones. -/
theorem absent_fields_spec :
    (∀ (db : DB) (cityId now : Nat) (wd : Snapshot),
      (saveWeatherData db cityId now wd).weather
        = db.weather ++ [savedRow cityId now wd] ∧
      (savedRow cityId now wd).temperature = wd.temperature ∧
      (savedRow cityId now wd).windSpeed = wd.windSpeed ∧
      (savedRow cityId now wd).pressure = wd.pressure ∧
      (savedRow cityId now wd).humidity = wd.humidity ∧
      (savedRow cityId now wd).precipitation = wd.precipitation) ∧
    (∀ (db : DB) (cityName timeStr : String) (parse : String → Option Nat)
      (r : WeatherResponse),
      getWeatherByCityAndTime db cityName timeStr none parse = some r →
      ∃ w ∈ db.weather, r.timestamp = w.timestamp ∧
        r.temperature = w.temperature ∧ r.humidity = w.humidity ∧
        r.windSpeed = w.windSpeed ∧ r.precipitation = w.precipitation ∧
        r.pressure = w.pressure) := by
  refine ⟨fun db cityId now wd => ⟨rfl, rfl, rfl, rfl, rfl, rfl⟩, ?_⟩
  intro db cityName timeStr parse r h
  obtain ⟨w, hw, rfl⟩ := getWeather_some_shape db cityName timeStr none parse r h
  exact ⟨w, hw, rfl, rfl, rfl, rfl, rfl, rfl⟩

/-- Witness for C6: saving a snapshot lacking precipitation, then querying
with no filter, yields a response whose precipitation key is absent. -/
theorem absent_fields_witness :
    (savedRow 0 43200 snapNoPrec).precipitation = none ∧
    getWeatherByCityAndTime (saveWeatherData (⟨[sampleCity], []⟩ : DB)
        0 43200 snapNoPrec) "Paris" "1970-01-01T13:00:00" none sampleParse
      = some (mkResponse "Paris" (savedRow 0 43200 snapNoPrec) none) ∧
    (mkResponse "Paris" (savedRow 0 43200 snapNoPrec) none).precipitation
      = none ∧
    (∃ w ∈ (saveWeatherData (⟨[sampleCity], []⟩ : DB)
        0 43200 snapNoPrec).weather,
      (mkResponse "Paris" (savedRow 0 43200 snapNoPrec) none).timestamp
          = w.timestamp ∧
      (mkResponse "Paris" (savedRow 0 43200 snapNoPrec) none).temperature
          = w.temperature ∧
      (mkResponse "Paris" (savedRow 0 43200 snapNoPrec) none).humidity
          = w.humidity ∧
      (mkResponse "Paris" (savedRow 0 43200 snapNoPrec) none).windSpeed
          = w.windSpeed ∧
      (mkResponse "Paris" (savedRow 0 43200 snapNoPrec) none).precipitation
          = w.precipitation ∧
      (mkResponse "Paris" (savedRow 0 43200 snapNoPrec) none).pressure
          = w.pressure) :=
  ⟨by decide, by decide, by decide,
   absent_fields_spec.2 (saveWeatherData (⟨[sampleCity], []⟩ : DB)
       0 43200 snapNoPrec) "Paris" "1970-01-01T13:00:00" sampleParse
     (mkResponse "Paris" (savedRow 0 43200 snapNoPrec) none) (by decide)⟩

/-- Claim C7: with a field filter the response holds the city name, the
chosen observation's timestamp, and exactly the requested canonical fields
that are non-null on the observation; requested names outside the canonical
set are silently ignored. -/
theorem fieldFilter_spec :
    (∀ (db : DB) (cityName timeStr : String) (l : List String)
      (parse : String → Option Nat) (r : WeatherResponse),
      getWeatherByCityAndTime db cityName timeStr (some l) parse = some r →
      r.city = cityName ∧ ∃ w ∈ db.weather,
        r.timestamp = w.timestamp ∧
        r.temperature
          = (if l.contains "temperature" then w.temperature else none) ∧
        r.humidity = (if l.contains "humidity" then w.humidity else none) ∧
        r.windSpeed
          = (if l.contains "wind_speed" then w.windSpeed else none) ∧
        r.precipitation
          = (if l.contains "precipitation" then w.precipitation else none) ∧
        r.pressure = (if l.contains "pressure" then w.pressure else none)) ∧
    (∀ (db : DB) (cityName timeStr : String) (l : List String)
      (parse : String → Option Nat),
      getWeatherByCityAndTime db cityName timeStr (some l) parse
        = getWeatherByCityAndTime db cityName timeStr
            (some (l.filter (fun s => canonicalFields.contains s))) parse) := by
  constructor
  · intro db cityName timeStr l parse r h
    obtain ⟨w, hw, rfl⟩ :=
      getWeather_some_shape db cityName timeStr (some l) parse r h
    exact ⟨rfl, w, hw, rfl, rfl, rfl, rfl, rfl, rfl⟩
  · intro db cityName timeStr l parse
    unfold getWeatherByCityAndTime
    cases findCityByName db cityName with
    | none => rfl
    | some city =>
      dsimp only
      cases parse timeStr with
      | none => rfl
      | some target =>
        dsimp only
        cases candidateWeather db city.id target with
        | nil => rfl
        | cons w ws =>
          dsimp only
          simp [mkResponse, includeField, canonicalFields]

/-- Witness for C7: the filter containing only temperature (plus, in the
second application, a non-canonical name) on the 12:00 observation, whose
fields are all present except precipitation, returns only temperature
besides city and timestamp. -/
theorem fieldFilter_witness :
    (getWeatherByCityAndTime sampleDb "Paris" "1970-01-01T13:00:00"
        (some ["temperature"]) sampleParse
      = some (mkResponse "Paris" obs1200 (some ["temperature"])) ∧
     (mkResponse "Paris" obs1200 (some ["temperature"])).city = "Paris" ∧
     (mkResponse "Paris" obs1200 (some ["temperature"])).timestamp = 43200 ∧
     (mkResponse "Paris" obs1200 (some ["temperature"])).temperature
       = some 15 ∧
     (mkResponse "Paris" obs1200 (some ["temperature"])).humidity = none ∧
     (mkResponse "Paris" obs1200 (some ["temperature"])).windSpeed = none ∧
     (mkResponse "Paris" obs1200 (some ["temperature"])).precipitation
       = none ∧
     (mkResponse "Paris" obs1200 (some ["temperature"])).pressure = none) ∧
    ((mkResponse "Paris" obs1200 (some ["temperature"])).city = "Paris" ∧
     ∃ w ∈ sampleDb.weather,
       (mkResponse "Paris" obs1200 (some ["temperature"])).timestamp
           = w.timestamp ∧
       (mkResponse "Paris" obs1200 (some ["temperature"])).temperature
           = (if List.contains ["temperature"] "temperature"
              then w.temperature else none) ∧
       (mkResponse "Paris" obs1200 (some ["temperature"])).humidity
           = (if List.contains ["temperature"] "humidity"
              then w.humidity else none) ∧
       (mkResponse "Paris" obs1200 (some ["temperature"])).windSpeed
           = (if List.contains ["temperature"] "wind_speed"
              then w.windSpeed else none) ∧
       (mkResponse "Paris" obs1200 (some ["temperature"])).precipitation
           = (if List.contains ["temperature"] "precipitation"
              then w.precipitation else none) ∧
       (mkResponse "Paris" obs1200 (some ["temperature"])).pressure
           = (if List.contains ["temperature"] "pressure"
              then w.pressure else none)) ∧
    getWeatherByCityAndTime sampleDb "Paris" "1970-01-01T13:00:00"
        (some ["temperature", "banana"]) sampleParse
      = getWeatherByCityAndTime sampleDb "Paris" "1970-01-01T13:00:00"
          (some (["temperature", "banana"].filter
            (fun s => canonicalFields.contains s))) sampleParse :=
  ⟨⟨by decide, by decide, by decide, by decide, by decide, by decide,
    by decide, by decide⟩,
   fieldFilter_spec.1 sampleDb "Paris" "1970-01-01T13:00:00" ["temperature"]
     sampleParse (mkResponse "Paris" obs1200 (some ["temperature"]))
     (by decide),
   fieldFilter_spec.2 sampleDb "Paris" "1970-01-01T13:00:00"
     ["temperature", "banana"] sampleParse⟩

/-- Claim C8: `fetch_weather_data` never raises to its caller: both
exception branches return absent; on a decoded body it always returns a
snapshot, in which every provider field that is missing comes out absent,
never zero. -/
theorem fetch_spec :
    fetchWeatherData .httpError = none ∧
    fetchWeatherData .malformed = none ∧
    (∀ b : ProviderBody, (fetchWeatherData (.success b)).isSome = true) ∧
    (∀ s : Snapshot, fetchWeatherData (.success ⟨none⟩) = some s →
      s.temperature = none ∧ s.windSpeed = none ∧ s.pressure = none ∧
      s.humidity = none ∧ s.precipitation = none) ∧
    (∀ (cf : CurrentFields) (s : Snapshot),
      fetchWeatherData (.success ⟨some cf⟩) = some s →
      (cf.temperature_2m = none → s.temperature = none) ∧
      (cf.wind_speed_10m = none → s.windSpeed = none) ∧
      (cf.surface_pressure = none → s.pressure = none) ∧
      (cf.relative_humidity_2m = none → s.humidity = none) ∧
      (cf.precipitation = none → s.precipitation = none)) := by
  refine ⟨rfl, rfl, fun b => rfl, ?_, ?_⟩
  · intro s h
    injection h with h
    subst h
    exact ⟨rfl, rfl, rfl, rfl, rfl⟩
  · intro cf s h
    injection h with h
    subst h
    exact ⟨fun e => e, fun e => e, fun e => e, fun e => e, fun e => e⟩

/-- Witness for C8: a body whose `current` object misses wind speed,
pressure and precipitation yields a snapshot with exactly those fields
absent. -/
theorem fetch_spec_witness :
    fetchWeatherData (.success ⟨some ⟨some 7, none, none, some 55, none⟩⟩)
      = some ⟨some 7, none, none, some 55, none⟩ ∧
    ((⟨some 7, none, none, some 55, none⟩ : CurrentFields).wind_speed_10m
        = none →
      (⟨some 7, none, none, some 55, none⟩ : Snapshot).windSpeed = none) ∧
    ((⟨some 7, none, none, some 55, none⟩ : CurrentFields).surface_pressure
        = none →
      (⟨some 7, none, none, some 55, none⟩ : Snapshot).pressure = none) ∧
    ((⟨some 7, none, none, some 55, none⟩ : CurrentFields).precipitation
        = none →
      (⟨some 7, none, none, some 55, none⟩ : Snapshot).precipitation
        = none) :=
  ⟨by decide,
   (fetch_spec.2.2.2.2 ⟨some 7, none, none, some 55, none⟩
     ⟨some 7, none, none, some 55, none⟩ (by decide)).2.1,
   (fetch_spec.2.2.2.2 ⟨some 7, none, none, some 55, none⟩
     ⟨some 7, none, none, some 55, none⟩ (by decide)).2.2.1,
   (fetch_spec.2.2.2.2 ⟨some 7, none, none, some 55, none⟩
     ⟨some 7, none, none, some 55, none⟩ (by decide)).2.2.2.2⟩

/-- Claim C9 counterexample: registering a fresh city whose provider fetch
fails returns success with the city stored but zero observations, against
the claim that every freshly added city has at least one stored observation
before the next scheduled cycle. -/
theorem registerFetch_counterexample :
    (addCityEndpoint ⟨[], []⟩ "Oslo" 59 10 (fun _ _ => none) 500).2
      = true ∧
    countByName
      (addCityEndpoint ⟨[], []⟩ "Oslo" 59 10 (fun _ _ => none) 500).1 "Oslo"
      = 1 ∧
    (addCityEndpoint ⟨[], []⟩ "Oslo" 59 10 (fun _ _ => none) 500).1.weather
      = [] := by decide

/-- Claim C9 amended: registering a fresh city triggers exactly one
synchronous provider fetch before the response; when the fetch yields a
snapshot it is stored for the new city, and when the fetch fails the
registration still succeeds with no observation stored. -/
theorem registerFetch_spec (db : DB) (name : String) (lat lon : ℚ)
    (fetch : ℚ → ℚ → Option Snapshot) (now : Nat)
    (h : findCityByName db name = none) :
    (addCityEndpoint db name lat lon fetch now).2 = true ∧
    (fetch lat lon = none →
      (addCityEndpoint db name lat lon fetch now).1.weather = db.weather) ∧
    (∀ wd, fetch lat lon = some wd →
      (addCityEndpoint db name lat lon fetch now).1.weather
        = db.weather ++ [savedRow (newCity db name lat lon).id now wd]) := by
  have hadd : addCity db name lat lon
      = (⟨db.cities ++ [newCity db name lat lon], db.weather⟩, true) := by
    simp [addCity, h]
  have hfind := findCityByName_after_add db name lat lon h
  refine ⟨?_, ?_, ?_⟩
  · unfold addCityEndpoint
    rw [hadd]
    cases hf : fetch lat lon with
    | none => rfl
    | some wd =>
      simp only [hfind]
  · intro hf
    unfold addCityEndpoint
    rw [hadd, hf]
  · intro wd hf
    unfold addCityEndpoint
    rw [hadd, hf]
    simp only [hfind]
    rfl

/-- Witness for C9 amended: on the empty store, a failing fetch leaves no
observation while a succeeding fetch stores exactly one row for the new
city. -/
theorem registerFetch_witness :
    findCityByName (⟨[], []⟩ : DB) "Oslo" = none ∧
    (addCityEndpoint ⟨[], []⟩ "Oslo" 59 10 (fun _ _ => none) 500).2
      = true ∧
    (addCityEndpoint ⟨[], []⟩ "Oslo" 59 10 (fun _ _ => none) 500).1.weather
      = [] ∧
    (addCityEndpoint ⟨[], []⟩ "Oslo" 59 10 (fun _ _ => some snapG)
        500).1.weather
      = [savedRow (newCity ⟨[], []⟩ "Oslo" 59 10).id 500 snapG] :=
  ⟨by decide,
   (registerFetch_spec ⟨[], []⟩ "Oslo" 59 10 (fun _ _ => none) 500
     (by decide)).1,
   (registerFetch_spec ⟨[], []⟩ "Oslo" 59 10 (fun _ _ => none) 500
     (by decide)).2.1 rfl,
   (registerFetch_spec ⟨[], []⟩ "Oslo" 59 10 (fun _ _ => some snapG) 500
     (by decide)).2.2 snapG rfl⟩

/-- Claim C10: when the timestamp string fails to parse as ISO-8601, the
lookup for an existing city returns not-found instead of raising, and the
HTTP layer answers 404. -/
theorem badTimestamp_spec (db : DB) (cityName timeStr : String)
    (params : Option (List String)) (parse : String → Option Nat) (c : City)
    (hc : findCityByName db cityName = some c)
    (hp : parse timeStr = none) :
    getWeatherByCityAndTime db cityName timeStr params parse = none ∧
    getWeatherByTimeEndpoint db cityName timeStr params parse
      = Except.error 404 := by
  have h1 : getWeatherByCityAndTime db cityName timeStr params parse
      = none := by
    simp [getWeatherByCityAndTime, hc, hp]
  exact ⟨h1, by simp [getWeatherByTimeEndpoint, h1]⟩

/-- Witness for C10: the city Paris exists and the malformed string is
rejected by the parser, so the lookup yields not-found and the endpoint
404. -/
theorem badTimestamp_witness :
    findCityByName sampleDb "Paris" = some sampleCity ∧
    sampleParse "not-a-timestamp" = none ∧
    getWeatherByCityAndTime sampleDb "Paris" "not-a-timestamp"
        none sampleParse = none ∧
    getWeatherByTimeEndpoint sampleDb "Paris" "not-a-timestamp"
        none sampleParse = Except.error 404 :=
  ⟨by decide, by decide,
   (badTimestamp_spec sampleDb "Paris" "not-a-timestamp" none sampleParse
     sampleCity (by decide) (by decide)).1,
   (badTimestamp_spec sampleDb "Paris" "not-a-timestamp" none sampleParse
     sampleCity (by decide) (by decide)).2⟩

end WeatherServer
